import Mathlib

/-!
Shallow embedding of `packages/tracing/src/hubextensions.ts`: the sampling
decision engine (`sample`, `isValidSampleRate`, `_inheritOrUseGivenRate`),
trace-header serialization (`traceHeaders`) and the idempotent extension
registration (`_addTracingExtensions`), together with theorems settling the
specification claims about them.

JavaScript numbers are modelled as rationals plus an explicit `NaN`
constructor; the pieces of JS coercion the source exercises (`typeof`,
`ToNumber`, truthiness, relational comparison) are embedded explicitly.
-/

namespace SentryTracing

/-- A JavaScript runtime value, as far as the sampling code inspects one:
its `typeof`, its `ToNumber` coercion and its truthiness. Non-primitive
values (objects, arrays, functions) are collapsed into `obj`; `str` and
`obj` carry their `ToNumber` interpretation (`none` meaning the coercion
yields `NaN`). -/
inductive JSValue where
  | num (q : ℚ)
  | nan
  | bool (b : Bool)
  | str (s : String) (numVal : Option ℚ)
  | undefined
  | null
  | obj (numVal : Option ℚ)
deriving DecidableEq

/-- The JS `ToNumber` coercion; `none` stands for `NaN`. -/
def jsToNumber : JSValue → Option ℚ
  | .num q => some q
  | .nan => none
  | .bool b => some (if b then 1 else 0)
  | .str _ numVal => numVal
  | .undefined => none
  | .null => some 0
  | .obj numVal => numVal

/-- The JS global `isNaN`: coerce with `ToNumber`, test for `NaN`. -/
def jsIsNaN (v : JSValue) : Bool := (jsToNumber v).isNone

/-- The JS `typeof` operator. -/
def jsTypeof : JSValue → String
  | .num _ => "number"
  | .nan => "number"
  | .bool _ => "boolean"
  | .str _ _ => "string"
  | .undefined => "undefined"
  | .null => "object"
  | .obj _ => "object"

/-- JS truthiness (`!v` in the source is `¬ jsTruthy v`). -/
def jsTruthy : JSValue → Bool
  | .num q => q != 0
  | .nan => false
  | .bool b => b
  | .str s _ => s != ""
  | .undefined => false
  | .null => false
  | .obj _ => true

/-- JS relational comparison `v < q` against a number literal: `v` is coerced
with `ToNumber`; any comparison involving `NaN` is false. -/
def jsLtNum (v : JSValue) (q : ℚ) : Bool :=
  match jsToNumber v with
  | some x => decide (x < q)
  | none => false

/-- JS relational comparison `v > q` against a number literal. -/
def jsGtNum (v : JSValue) (q : ℚ) : Bool :=
  match jsToNumber v with
  | some x => decide (x > q)
  | none => false

/-- JS relational comparison `q < v` (a number on the left, as in
`Math.random() < sampleRate`): `v` is coerced with `ToNumber`, so a boolean
rate is cast to 1 when true and 0 when false; comparison with `NaN` is
false. -/
def jsNumLt (q : ℚ) (v : JSValue) : Bool :=
  match jsToNumber v with
  | some x => decide (q < x)
  | none => false

/-- A transaction (root span): the fields the code under verification reads
and writes. `sampled = none` is the undecided state; `spanRecorder = some m`
records that `initSpanRecorder` was called with `maxSpans` argument `m`. -/
structure Span where
  traceId : String
  spanId : String
  parentSpanId : Option String := none
  sampled : Option Bool := none
  spanRecorder : Option JSValue := none
deriving DecidableEq

/-- The sample context handed to the sampling decision (`SampleContext` in
`@sentry/types`): the parent decision plus environment snapshots. -/
structure SampleContext where
  parentSampled : Option Bool := none
  request : Option JSValue := none
  location : Option JSValue := none

/-- The client options `sample` reads: `tracesSampler` (a user-supplied
function which may throw, hence `Except`), `tracesSampleRate`
(`JSValue.undefined` when not configured) and the experimental
`_experiments.maxSpans` (`JSValue.undefined` when absent). -/
structure Options where
  tracesSampler : Option (SampleContext → Except JSValue JSValue) := none
  tracesSampleRate : JSValue := .undefined
  maxSpans : JSValue := .undefined

/-- The observable side effects of one call into the sampling code: how many
times `logger.warn` and `logger.log` were invoked, and whether `Math.random`
was consulted. -/
structure Effects where
  warns : ℕ := 0
  logs : ℕ := 0
  randomDrawn : Bool := false
deriving DecidableEq

/-- Modelled from the spec: `hasTracingEnabled` is imported from `./utils`,
which is not among the provided sources. Per the spec, sampling is enabled
iff at least one of `tracesSampler` or `tracesSampleRate` is configured. -/
def hasTracingEnabled (options : Options) : Bool :=
  options.tracesSampler.isSome || options.tracesSampleRate != JSValue.undefined

/-- Modelled from the spec: `Span.toTraceparent` lives in the span module,
which is not among the provided sources. Wire grammar
`<traceId>-<spanId>[-<sampledFlag>]`, the flag `1`/`0` emitted only once
the sampling decision is known and omitted while undecided. -/
def toTraceparent (span : Span) : String :=
  match span.sampled with
  | none => span.traceId ++ "-" ++ span.spanId
  | some b => span.traceId ++ "-" ++ span.spanId ++ "-" ++ (if b then "1" else "0")

/-- The slice of a hub scope that `traceHeaders` reads: the active span, if
any. -/
structure Scope where
  span : Option Span
deriving DecidableEq

/-- `traceHeaders` (hubextensions.ts, lines 18–29): returns the
`sentry-trace` header for the span on the top scope, or an empty mapping
when there is no scope or no span. The argument is `this.getScope()`. -/
def traceHeaders (scope : Option Scope) : List (String × String) :=
  match scope with
  | some sc =>
    match sc.span with
    | some span => [("sentry-trace", toTraceparent span)]
    | none => []
  | none => []

/-- `_inheritOrUseGivenRate` (lines 39–41): the parent decision if one
exists, otherwise the given static rate. A present parent decision is a JS
boolean. -/
def _inheritOrUseGivenRate (parentSampled : Option Bool) (givenRate : JSValue) : JSValue :=
  match parentSampled with
  | some b => .bool b
  | none => givenRate

/-- Lines 67–70 of `sample`: the candidate sample rate. Prefer the
`tracesSampler` hook when it is a function (it may throw, hence `Except`);
otherwise inherit the parent decision or fall back to the static rate. -/
def candidateRate (options : Options) (sampleContext : SampleContext) :
    Except JSValue JSValue :=
  match options.tracesSampler with
  | some tracesSampler => tracesSampler sampleContext
  | none => .ok (_inheritOrUseGivenRate sampleContext.parentSampled options.tracesSampleRate)

/-- `isValidSampleRate` (lines 169–187), paired with the number of
`logger.warn` calls it makes: invalid when `isNaN(rate)` or `typeof rate`
is neither number nor boolean, or when the (coerced) value is below 0 or
above 1; each rejection emits one warning. -/
def isValidSampleRateImpl (rate : JSValue) : Bool × ℕ :=
  if jsIsNaN rate || !(jsTypeof rate == "number" || jsTypeof rate == "boolean") then
    (false, 1)
  else if jsLtNum rate 0 || jsGtNum rate 1 then
    (false, 1)
  else
    (true, 0)

/-- The boolean result of `isValidSampleRate`. -/
def isValidSampleRate (rate : JSValue) : Bool := (isValidSampleRateImpl rate).1

/-- `sample` (lines 55–113). Inputs: whether `hub.getClient()` yielded a
client, the client options, the transaction, the sample context, and the
value `Math.random()` would return (a rational in `[0, 1)`). Output: the
(possibly mutated) transaction, the observable effects, and `some e` when a
user hook threw `e` (in which case the transaction is returned as the
caller still sees it — unmodified). -/
def sample (client : Bool) (options : Options) (transaction : Span)
    (sampleContext : SampleContext) (rnd : ℚ) :
    Span × Effects × Option JSValue :=
  if !client || !hasTracingEnabled options then
    ({ transaction with sampled := some false }, {}, none)
  else
    match candidateRate options sampleContext with
    | .error e => (transaction, {}, some e)
    | .ok sampleRate =>
      let valid := isValidSampleRateImpl sampleRate
      if !valid.1 then
        ({ transaction with sampled := some false }, { warns := valid.2 + 1 }, none)
      else if !jsTruthy sampleRate then
        ({ transaction with sampled := some false }, { warns := valid.2, logs := 1 }, none)
      else if jsNumLt rnd sampleRate then
        ({ transaction with sampled := some true, spanRecorder := some options.maxSpans },
          { warns := valid.2, randomDrawn := true }, none)
      else
        ({ transaction with sampled := some false },
          { warns := valid.2, logs := 1, randomDrawn := true }, none)

/-- A label for an implementation stored in the extensions table. The
registration code writes the module functions `_startTransaction` and
`traceHeaders`; `otherImpl` stands for any implementation registered by
someone else earlier. -/
inductive Extension where
  | startTransactionImpl
  | traceHeadersImpl
  | otherImpl (n : ℕ)
deriving DecidableEq

/-- The `carrier.__SENTRY__.extensions` table: the two slots this module
registers. `none` models an absent (falsy) entry. -/
structure Extensions where
  startTransaction : Option Extension := none
  traceHeaders : Option Extension := none
deriving DecidableEq

/-- The `__SENTRY__` object on the main carrier, as far as registration
touches it: its `extensions` table, possibly absent. -/
structure SentryObj where
  extensions : Option Extensions := none
deriving DecidableEq

/-- The main carrier (the global object): `__SENTRY__` may be absent. -/
structure Carrier where
  __SENTRY__ : Option SentryObj := none
deriving DecidableEq

/-- `_addTracingExtensions` (lines 224–235): if the carrier has a
`__SENTRY__` object, ensure an extensions table exists and fill each of the
`startTransaction` and `traceHeaders` slots only when it is still empty. -/
def _addTracingExtensions (carrier : Carrier) : Carrier :=
  match carrier.__SENTRY__ with
  | none => carrier
  | some sentry =>
    let extensions := sentry.extensions.getD {}
    let extensions :=
      if extensions.startTransaction.isNone then
        { extensions with startTransaction := some .startTransactionImpl }
      else extensions
    let extensions :=
      if extensions.traceHeaders.isNone then
        { extensions with traceHeaders := some .traceHeadersImpl }
      else extensions
    { carrier with __SENTRY__ := some { sentry with extensions := some extensions } }

/-- The implementation currently registered in the `startTransaction` slot
of the carrier, if any. -/
def registeredStartTransaction (carrier : Carrier) : Option Extension :=
  match carrier.__SENTRY__ with
  | some sentry =>
    match sentry.extensions with
    | some extensions => extensions.startTransaction
    | none => none
  | none => none

/-- The implementation currently registered in the `traceHeaders` slot of
the carrier, if any. -/
def registeredTraceHeaders (carrier : Carrier) : Option Extension :=
  match carrier.__SENTRY__ with
  | some sentry =>
    match sentry.extensions with
    | some extensions => extensions.traceHeaders
    | none => none
  | none => none

/-- C1: Candidate-rate selection precedence. With a client present and
tracing enabled: if `tracesSampler` is a function it is invoked with the
sample context and its return value is the candidate rate; otherwise, if
`sampleContext.parentSampled` is defined, the candidate rate is that
boolean; otherwise it is the configured static `tracesSampleRate`. -/
theorem candidateRate_precedence (client : Bool) (options : Options)
    (sampleContext : SampleContext)
    (_hclient : client = true) (_htracing : hasTracingEnabled options = true) :
    (∀ f, options.tracesSampler = some f →
      candidateRate options sampleContext = f sampleContext)
    ∧ (∀ b, options.tracesSampler = none → sampleContext.parentSampled = some b →
      candidateRate options sampleContext = .ok (.bool b))
    ∧ (options.tracesSampler = none → sampleContext.parentSampled = none →
      candidateRate options sampleContext = .ok options.tracesSampleRate) := by
  refine ⟨?_, ?_, ?_⟩
  · intro f hf
    simp [candidateRate, hf]
  · intro b hs hp
    simp [candidateRate, hs, _inheritOrUseGivenRate, hp]
  · intro hs hp
    simp [candidateRate, hs, _inheritOrUseGivenRate, hp]

/-- Witness for C1 at a concrete configuration: static rate 1/2 with the
parent sampled in and no sampler hook — the candidate rate is the parent
boolean. -/
theorem candidateRate_precedence_witness :
    hasTracingEnabled { tracesSampleRate := .num (1/2) } = true
    ∧ candidateRate { tracesSampleRate := .num (1/2) } { parentSampled := some true }
      = .ok (.bool true) :=
  ⟨by decide,
    (candidateRate_precedence true { tracesSampleRate := .num (1/2) }
      { parentSampled := some true } rfl (by decide)).2.1 true rfl rfl⟩

/-- C3: `isValidSampleRate` returns true iff the rate is a boolean, or a
number that is not NaN and lies in the closed interval `[0, 1]`; every
other input yields false, with exactly one diagnostic warning emitted (the
function is total, so it never throws). -/
theorem isValidSampleRate_spec (rate : JSValue) :
    (isValidSampleRate rate = true ↔
      ((∃ b, rate = .bool b) ∨ ∃ q, rate = .num q ∧ 0 ≤ q ∧ q ≤ 1))
    ∧ (isValidSampleRate rate = false → (isValidSampleRateImpl rate).2 = 1) := by
  cases rate with
  | num q =>
    by_cases h0 : q < 0
    · simp [isValidSampleRate, isValidSampleRateImpl, jsIsNaN, jsToNumber, jsTypeof,
        jsLtNum, jsGtNum, h0]
    · by_cases h1 : q > 1
      · simp [isValidSampleRate, isValidSampleRateImpl, jsIsNaN, jsToNumber, jsTypeof,
          jsLtNum, jsGtNum, h0, h1]
      · simp [isValidSampleRate, isValidSampleRateImpl, jsIsNaN, jsToNumber, jsTypeof,
          jsLtNum, jsGtNum, h0, h1]
        constructor <;> linarith
  | nan =>
    simp [isValidSampleRate, isValidSampleRateImpl, jsIsNaN, jsToNumber]
  | bool b =>
    simp [isValidSampleRate, isValidSampleRateImpl, jsIsNaN, jsToNumber, jsTypeof,
      jsLtNum, jsGtNum]
    cases b <;> norm_num
  | str s numVal =>
    simp [isValidSampleRate, isValidSampleRateImpl, jsIsNaN, jsToNumber, jsTypeof]
  | undefined =>
    simp [isValidSampleRate, isValidSampleRateImpl, jsIsNaN, jsToNumber]
  | null =>
    simp [isValidSampleRate, isValidSampleRateImpl, jsIsNaN, jsToNumber, jsTypeof]
  | obj numVal =>
    simp [isValidSampleRate, isValidSampleRateImpl, jsIsNaN, jsToNumber, jsTypeof]

/-- Witness for C3 at the concrete input `NaN`: rejected, one warning. -/
theorem isValidSampleRate_spec_witness :
    isValidSampleRate .nan = false ∧ (isValidSampleRateImpl .nan).2 = 1 :=
  ⟨by decide, (isValidSampleRate_spec .nan).2 (by decide)⟩

/-- C2: the final sampling gate. With a client, tracing enabled and a
valid, truthy candidate rate, the transaction is sampled-in iff the
uniform draw in `[0, 1)` is strictly less than the rate under JS numeric
coercion (`jsNumLt`, which casts a boolean to 1 or 0); consequently a
candidate rate of `true` always yields `sampled = true` and `false`
always yields `sampled = false`, whatever the context. -/
theorem sample_final_gate (options : Options) (transaction : Span)
    (sampleContext : SampleContext) (rnd : ℚ) (rate : JSValue)
    (htracing : hasTracingEnabled options = true)
    (hrate : candidateRate options sampleContext = .ok rate)
    (_h0 : 0 ≤ rnd) (h1 : rnd < 1) :
    (isValidSampleRate rate = true → jsTruthy rate = true →
      ((sample true options transaction sampleContext rnd).1.sampled = some true
        ↔ jsNumLt rnd rate = true))
    ∧ (rate = .bool true →
      (sample true options transaction sampleContext rnd).1.sampled = some true)
    ∧ (rate = .bool false →
      (sample true options transaction sampleContext rnd).1.sampled = some false) := by
  refine ⟨?_, ?_, ?_⟩
  · intro hv ht
    rw [isValidSampleRate] at hv
    simp only [sample, htracing, hrate, hv, ht, Bool.not_true, Bool.false_or,
      Bool.not_false, if_false]
    by_cases hlt : jsNumLt rnd rate = true
    · simp [hlt]
    · simp [hlt]
  · rintro rfl
    have hineq : ¬ (1:ℚ) < 0 := by norm_num
    simp [sample, htracing, hrate, isValidSampleRateImpl, jsIsNaN, jsToNumber,
      jsTypeof, jsLtNum, jsGtNum, jsTruthy, jsNumLt, h1, hineq]
  · rintro rfl
    have hineq : ¬ (1:ℚ) < 0 := by norm_num
    simp [sample, htracing, hrate, isValidSampleRateImpl, jsIsNaN, jsToNumber,
      jsTypeof, jsLtNum, jsGtNum, jsTruthy, hineq]

/-- Witness for C2 at a concrete input: rate 1, draw 0 — sampled in. -/
theorem sample_final_gate_witness :
    (0:ℚ) ≤ 0 ∧ (0:ℚ) < 1
    ∧ (sample true { tracesSampleRate := .num 1 } { traceId := "t", spanId := "s" }
        {} 0).1.sampled = some true :=
  ⟨le_refl 0, by norm_num,
    ((sample_final_gate { tracesSampleRate := .num 1 } { traceId := "t", spanId := "s" }
        {} 0 (.num 1) (by decide) rfl (le_refl 0) (by norm_num)).1
      (by norm_num [isValidSampleRate, isValidSampleRateImpl, jsIsNaN, jsToNumber,
        jsTypeof, jsLtNum, jsGtNum])
      (by simp [jsTruthy])).mpr
      (by norm_num [jsNumLt, jsToNumber])⟩

/-- C4 counterexample: with a client present, `parentSampled = true` and no
`tracesSampler`, but the static rate left unconfigured (`undefined`, a
possible value of the `tracesSampleRate` option), tracing is not enabled
and the decision is `false` — refuting "always true regardless of the
static rate value". -/
theorem sample_parent_true_counterexample :
    (sample true {} { traceId := "t", spanId := "s" }
        { parentSampled := some true } 0).1.sampled = some false := by
  decide

/-- C4 (amended): provided a client is present, the static
`tracesSampleRate` is actually configured (not `undefined`, so tracing is
enabled) and the draw lies in `[0, 1)`, a parent decision of `true` with no
custom `tracesSampler` always yields `sampled = true`, regardless of the
configured static rate value. -/
theorem sample_parent_true_amended (options : Options) (transaction : Span)
    (sampleContext : SampleContext) (rnd : ℚ)
    (hs : options.tracesSampler = none)
    (hr : options.tracesSampleRate ≠ .undefined)
    (hp : sampleContext.parentSampled = some true)
    (_h0 : 0 ≤ rnd) (h1 : rnd < 1) :
    (sample true options transaction sampleContext rnd).1.sampled = some true := by
  have htracing : hasTracingEnabled options = true := by
    simp [hasTracingEnabled, hs, hr]
  have hrate : candidateRate options sampleContext = .ok (.bool true) := by
    simp [candidateRate, hs, _inheritOrUseGivenRate, hp]
  have hineq : ¬ (1:ℚ) < 0 := by norm_num
  simp [sample, htracing, hrate, isValidSampleRateImpl, jsIsNaN, jsToNumber,
    jsTypeof, jsLtNum, jsGtNum, jsTruthy, jsNumLt, h1, hineq]

/-- Witness for C4 (amended) at a concrete input: static rate 0, parent
sampled in, draw 0 — the parent decision wins and the transaction is kept. -/
theorem sample_parent_true_amended_witness :
    (0:ℚ) ≤ 0 ∧ (0:ℚ) < 1
    ∧ (sample true { tracesSampleRate := .num 0 } { traceId := "t", spanId := "s" }
        { parentSampled := some true } 0).1.sampled = some true :=
  ⟨le_refl 0, by norm_num,
    sample_parent_true_amended { tracesSampleRate := .num 0 }
      { traceId := "t", spanId := "s" } { parentSampled := some true } 0
      rfl (by decide) rfl (le_refl 0) (by norm_num)⟩

/-- C5: when sampling is not enabled (no client, or tracing not enabled
because neither `tracesSampler` nor `tracesSampleRate` is configured),
`sample` sets `sampled = false` and returns immediately: the span recorder
is untouched, no random number is drawn, no diagnostic is emitted and no
exception escapes. -/
theorem sample_disabled (client : Bool) (options : Options) (transaction : Span)
    (sampleContext : SampleContext) (rnd : ℚ)
    (h : client = false ∨ hasTracingEnabled options = false) :
    sample client options transaction sampleContext rnd
      = ({ transaction with sampled := some false }, {}, none)
    ∧ (sample client options transaction sampleContext rnd).1.spanRecorder
      = transaction.spanRecorder
    ∧ (sample client options transaction sampleContext rnd).2.1.randomDrawn = false := by
  have heq : sample client options transaction sampleContext rnd
      = ({ transaction with sampled := some false }, {}, none) := by
    rcases h with h | h <;> simp [sample, h]
  exact ⟨heq, by rw [heq], by rw [heq]⟩

/-- Witness for C5 at a concrete input with no client. -/
theorem sample_disabled_witness :
    sample false { tracesSampleRate := .num 1 } { traceId := "t", spanId := "s" } {} 0
      = ({ traceId := "t", spanId := "s", sampled := some false }, {}, none) :=
  (sample_disabled false { tracesSampleRate := .num 1 } { traceId := "t", spanId := "s" }
    {} 0 (Or.inl rfl)).1

/-- C6: for every invalid candidate rate, `sample` sets the decision to
false, diagnostics are produced (the validator warning plus the discard
warning), the call returns normally (no exception) and the span recorder
is untouched. -/
theorem sample_invalid_rate (options : Options) (transaction : Span)
    (sampleContext : SampleContext) (rnd : ℚ) (rate : JSValue)
    (htracing : hasTracingEnabled options = true)
    (hrate : candidateRate options sampleContext = .ok rate)
    (hinvalid : isValidSampleRate rate = false) :
    sample true options transaction sampleContext rnd
      = ({ transaction with sampled := some false },
         { warns := (isValidSampleRateImpl rate).2 + 1 }, none)
    ∧ 1 ≤ (sample true options transaction sampleContext rnd).2.1.warns
    ∧ (sample true options transaction sampleContext rnd).1.spanRecorder
      = transaction.spanRecorder := by
  rw [isValidSampleRate] at hinvalid
  have heq : sample true options transaction sampleContext rnd
      = ({ transaction with sampled := some false },
         { warns := (isValidSampleRateImpl rate).2 + 1 }, none) := by
    simp [sample, htracing, hrate, hinvalid]
  refine ⟨heq, by rw [heq]; exact Nat.le_add_left 1 _, by rw [heq]⟩

/-- Witness for C6 at the concrete invalid static rate 2 (above 1). -/
theorem sample_invalid_rate_witness :
    isValidSampleRate (.num 2) = false
    ∧ sample true { tracesSampleRate := .num 2 } { traceId := "t", spanId := "s" } {} 0
      = ({ traceId := "t", spanId := "s", sampled := some false },
         { warns := 2 }, none) :=
  ⟨by decide,
    (sample_invalid_rate { tracesSampleRate := .num 2 } { traceId := "t", spanId := "s" }
      {} 0 (.num 2) (by decide) rfl (by decide)).1⟩

/-- C7: an exception thrown by the user-supplied `tracesSampler` hook is
not caught by `sample`: it propagates to the caller and the transaction is
returned exactly as it was — its `sampled` field still undecided, no
effects performed. -/
theorem sample_sampler_throws (options : Options) (transaction : Span)
    (sampleContext : SampleContext) (rnd : ℚ)
    (f : SampleContext → Except JSValue JSValue) (e : JSValue)
    (hs : options.tracesSampler = some f)
    (hf : f sampleContext = .error e) :
    sample true options transaction sampleContext rnd = (transaction, {}, some e) := by
  have htracing : hasTracingEnabled options = true := by
    simp [hasTracingEnabled, hs]
  simp [sample, htracing, candidateRate, hs, hf]

/-- A sampler hook that always throws the JS value `null`. -/
def throwingSampler : SampleContext → Except JSValue JSValue :=
  fun _ => .error .null

/-- Witness for C7 at a concrete throwing hook: the error propagates and
the transaction (with `sampled` still undecided) is unchanged. -/
theorem sample_sampler_throws_witness :
    sample true { tracesSampler := some throwingSampler }
        { traceId := "t", spanId := "s" } {} 0
      = ({ traceId := "t", spanId := "s" }, {}, some .null) :=
  sample_sampler_throws { tracesSampler := some throwingSampler }
    { traceId := "t", spanId := "s" } {} 0 throwingSampler .null rfl rfl

/-- C8: Extension registration is idempotent with first-writer-wins
semantics: an already-registered `startTransaction` (resp. `traceHeaders`)
implementation is preserved by any later `_addTracingExtensions` call, and
the call is idempotent. -/
theorem addTracingExtensions_first_wins (carrier : Carrier) (ext : Extension) :
    (registeredStartTransaction carrier = some ext →
      registeredStartTransaction (_addTracingExtensions carrier) = some ext)
    ∧ (registeredTraceHeaders carrier = some ext →
      registeredTraceHeaders (_addTracingExtensions carrier) = some ext)
    ∧ _addTracingExtensions (_addTracingExtensions carrier)
      = _addTracingExtensions carrier := by
  obtain ⟨s⟩ := carrier
  cases s with
  | none =>
    simp [_addTracingExtensions, registeredStartTransaction, registeredTraceHeaders]
  | some sentry =>
    obtain ⟨e⟩ := sentry
    cases e with
    | none =>
      simp [_addTracingExtensions, registeredStartTransaction, registeredTraceHeaders]
    | some extensions =>
      obtain ⟨st, th⟩ := extensions
      cases st <;> cases th <;>
        simp [_addTracingExtensions, registeredStartTransaction, registeredTraceHeaders]

/-- A carrier on which some earlier module already registered its own
`startTransaction` implementation. -/
def preRegisteredCarrier : Carrier :=
  { __SENTRY__ := some { extensions := some { startTransaction := some (.otherImpl 7) } } }

/-- Witness for C8: a previously registered foreign implementation survives
a registration call untouched. -/
theorem addTracingExtensions_first_wins_witness :
    registeredStartTransaction preRegisteredCarrier = some (.otherImpl 7)
    ∧ registeredStartTransaction (_addTracingExtensions preRegisteredCarrier)
      = some (.otherImpl 7) :=
  ⟨rfl, (addTracingExtensions_first_wins preRegisteredCarrier (.otherImpl 7)).1 rfl⟩

/-- C9: `traceHeaders` returns the empty mapping when there is no scope or
no active span, and otherwise a single `sentry-trace` entry carrying
`<traceId>-<spanId>[-<sampledFlag>]`; at the spec examples it produces
`abc123-def456-1` when sampled and `abc123-def456` while undecided. -/
theorem traceHeaders_spec (scope : Option Scope) :
    ((scope = none ∨ ∃ sc, scope = some sc ∧ sc.span = none) →
      traceHeaders scope = [])
    ∧ (∀ sc span, scope = some sc → sc.span = some span →
      traceHeaders scope = [("sentry-trace", toTraceparent span)])
    ∧ traceHeaders
        (some ⟨some { traceId := "abc123", spanId := "def456", sampled := some true }⟩)
      = [("sentry-trace", "abc123-def456-1")]
    ∧ traceHeaders (some ⟨some { traceId := "abc123", spanId := "def456" }⟩)
      = [("sentry-trace", "abc123-def456")] := by
  refine ⟨?_, ?_, rfl, rfl⟩
  · rintro (rfl | ⟨sc, rfl, hsc⟩)
    · rfl
    · simp [traceHeaders, hsc]
  · rintro sc span rfl hspan
    simp [traceHeaders, hspan]

/-- Witness for C9 at the concrete input of an absent scope: the mapping is
empty. -/
theorem traceHeaders_spec_witness : traceHeaders none = [] :=
  (traceHeaders_spec none).1 (Or.inl rfl)

/-- C10: when the main carrier has no `__SENTRY__` property,
`_addTracingExtensions` leaves the carrier completely unchanged: no
extensions table is created and nothing is registered. -/
theorem addTracingExtensions_no_sentry (carrier : Carrier)
    (h : carrier.__SENTRY__ = none) :
    _addTracingExtensions carrier = carrier := by
  simp [_addTracingExtensions, h]

/-- Witness for C10 at the concrete empty carrier. -/
theorem addTracingExtensions_no_sentry_witness :
    ({} : Carrier).__SENTRY__ = none
    ∧ _addTracingExtensions {} = ({} : Carrier) :=
  ⟨rfl, addTracingExtensions_no_sentry {} rfl⟩

end SentryTracing
